import Mathlib

/-!
Verification of the Termux git HTTP gateway (`script.py`): a shallow
embedding of its repository store, operation executor, inventory scanner
and request router, with theorems checking the specification's claims.

Filesystem state and subprocess behaviour are modelled as oracles in an
`Env`; each operation returns its Python-level outcome (normal result or
raised exception) together with the ordered list of externally visible
effects it performed.
-/

/-- Outcome of attempting one subprocess invocation, as seen by
`subprocess.run`: the process completes with an exit code and captured
streams, exceeds its timeout, or fails to spawn (typically a missing
`git` binary, which Python reports as `FileNotFoundError`). -/
inductive ProcOutcome where
  | completed (returncode : Int) (stdout stderr : String)
  | hangs
  | spawnFailure (msg : String)
deriving DecidableEq

/-- The Python exception kinds raised or caught in `script.py`. A
subprocess spawn failure is modelled as `fileNotFoundError`, the class
Python raises when the executable is missing. -/
inductive PyExn where
  | valueError (msg : String)
  | fileExistsError (msg : String)
  | fileNotFoundError (msg : String)
  | runtimeError (msg : String)
  | calledProcessError (stdout stderr strMsg : String)
  | timeoutExpired (strMsg : String)
deriving DecidableEq

/-- External state and behaviour: the repository root (`REPOS_DIR`),
filesystem predicates (`os.path.exists`, `os.path.isdir`), the
subprocess oracle (full argv to outcome), and the result of
`os.listdir` on the root. -/
structure Env where
  root : String
  pathExists : String → Bool
  isDir : String → Bool
  proc : List String → ProcOutcome
  listing : List String

/-- Externally visible effects, in order of occurrence: `os.makedirs` on
the root (`ensure_repos_dir`), an `os.path.exists` check, and a git
subprocess invocation with its timeout bound in seconds. -/
inductive Effect where
  | ensureRoot
  | existsCheck (path : String)
  | spawnGit (argv : List String) (timeoutSecs : Nat)
deriving DecidableEq

/-- Model of `c in s` on a Python string, by character. -/
def strContains (s : String) (c : Char) : Bool :=
  s.data.contains c

/-- Model of `s.startswith(p)` on a Python string. -/
def strStartsWith (s p : String) : Bool :=
  p.data.isPrefixOf s.data

/-- Model of `s.endswith(p)` on a Python string. -/
def strEndsWith (s p : String) : Bool :=
  p.data.isSuffixOf s.data

/-- Model of `s.strip()` on a Python string: whitespace removed on both ends. -/
def strTrim (s : String) : String :=
  ⟨((s.data.dropWhile Char.isWhitespace).reverse.dropWhile Char.isWhitespace).reverse⟩

/-- Model of `s.rstrip(c)` for a single character. -/
def strDropRightWhile (s : String) (p : Char → Bool) : String :=
  ⟨(s.data.reverse.dropWhile p).reverse⟩

/-- Suffix removal helper, the tail of `str.removesuffix`. -/
def strDropRight (s : String) (n : Nat) : String :=
  ⟨s.data.take (s.data.length - n)⟩

/-- Model of `s.split(c)` on a list of characters, Python semantics: splitting
the empty string yields one empty piece. -/
def splitOnChar (c : Char) : List Char → List (List Char)
  | [] => [[]]
  | x :: xs =>
      let r := splitOnChar c xs
      if x == c then [] :: r
      else
        match r with
        | [] => [[x]]
        | h :: t => (x :: h) :: t

/-- Join strings with a separator (model of `" ".join`). -/
def joinWith (sep : String) : List String → String
  | [] => ""
  | [x] => x
  | x :: xs => x ++ sep ++ joinWith sep xs

/-- Model of `os.path.join a b` restricted to the cases arising here: an absolute
`b` replaces `a`; otherwise the two parts are joined with exactly one
separator (`os.path.join(a, "")` yields `a` plus a trailing slash). -/
def osPathJoin (a b : String) : String :=
  if strStartsWith b "/" then b
  else if a == "" then b
  else if strEndsWith a "/" then a ++ b
  else a ++ "/" ++ b

/-- Definition `is_git_dir` from `script.py`: the path has a `.git` subdirectory. -/
def is_git_dir (env : Env) (path : String) : Bool :=
  env.isDir (osPathJoin path ".git")

/-- Model of `str(subprocess.CalledProcessError)`, formatting abbreviated: a
generic sentence about the exit status, not the captured diagnostic
output of the process. -/
def cpeMessage (argv : List String) (rc : Int) : String :=
  "Command " ++ joinWith " " argv ++
    " returned non-zero exit status " ++ toString rc ++ "."

/-- Model of `str(subprocess.TimeoutExpired)`, formatting abbreviated. -/
def timedOutMessage (argv : List String) (t : Nat) : String :=
  "Command " ++ joinWith " " argv ++
    " timed out after " ++ toString t ++ " seconds"

/-- Model of `str(e)` for the modelled exceptions, as used by the routers'
generic `except Exception` handlers. -/
def pyStr : PyExn → String
  | .valueError m => m
  | .fileExistsError m => m
  | .fileNotFoundError m => m
  | .runtimeError m => m
  | .calledProcessError _ _ s => s
  | .timeoutExpired s => s

/-- Operation `init_repo` from `script.py`: validate the name, ensure the root,
reject an existing target path, then `git init <path>` with a 10-second
bound and `check=True` (a nonzero exit raises `CalledProcessError`). -/
def init_repo (env : Env) (name : String) :
    Except PyExn (String × String) × List Effect :=
  if name == "" || strContains name '/' || strContains name '\\' || strStartsWith name "." then
    (.error (.valueError "Invalid repo name"), [])
  else
    let full := osPathJoin env.root name
    if env.pathExists full then
      (.error (.fileExistsError ("A directory named \"" ++ name ++ "\" already exists")),
       [.ensureRoot, .existsCheck full])
    else
      let argv := ["git", "init", full]
      let tr := [Effect.ensureRoot, .existsCheck full, .spawnGit argv 10]
      match env.proc argv with
      | .completed rc out err =>
          if rc == 0 then (.ok (name, full), tr)
          else (.error (.calledProcessError out err (cpeMessage argv rc)), tr)
      | .hangs => (.error (.timeoutExpired (timedOutMessage argv 10)), tr)
      | .spawnFailure m => (.error (.fileNotFoundError m), tr)

/-- Name derivation in `clone_repo` when no name is supplied: last
URL path segment with a trailing `.git` stripped, else `repo`. -/
def derive_name (url : String) : String :=
  let seg : String :=
    ⟨(splitOnChar '/' (strDropRightWhile url (fun c => c == '/')).data).getLastD []⟩
  let stripped := if strEndsWith seg ".git" then strDropRight seg 4 else seg
  if stripped == "" then "repo" else stripped

/-- Operation `clone_repo` from `script.py`: require a URL, ensure the root,
derive the name when absent, validate it (no emptiness check), reject
an existing target path, then `git clone <url> <path>` with a
300-second bound and `check=True`. -/
def clone_repo (env : Env) (url : String) (nameOpt : Option String) :
    Except PyExn (String × String) × List Effect :=
  if url == "" then
    (.error (.valueError "Clone URL required"), [])
  else
    let name := match nameOpt with
      | none => derive_name url
      | some n => n
    if strContains name '/' || strContains name '\\' || strStartsWith name "." then
      (.error (.valueError "Invalid repo name"), [.ensureRoot])
    else
      let full := osPathJoin env.root name
      if env.pathExists full then
        (.error (.fileExistsError ("A directory named \"" ++ name ++ "\" already exists")),
         [.ensureRoot, .existsCheck full])
      else
        let argv := ["git", "clone", url, full]
        let tr := [Effect.ensureRoot, .existsCheck full, .spawnGit argv 300]
        match env.proc argv with
        | .completed rc out err =>
            if rc == 0 then (.ok (name, full), tr)
            else (.error (.calledProcessError out err (cpeMessage argv rc)), tr)
        | .hangs => (.error (.timeoutExpired (timedOutMessage argv 300)), tr)
        | .spawnFailure m => (.error (.fileNotFoundError m), tr)

/-- Operation `run_git` from `script.py`: empty args short-circuit to `""`;
a path without `.git` raises `FileNotFoundError`; otherwise
`git -C <path> <args...>` with a 60-second bound and no `check=True`:
a nonzero exit with non-empty trimmed stderr raises `RuntimeError`,
every other exit returns trimmed stdout, or trimmed stderr when
stdout is empty. -/
def run_git (env : Env) (repoName : String) (args : List String) :
    Except PyExn String × List Effect :=
  if args == [] then
    (.ok "", [])
  else
    let full := osPathJoin env.root repoName
    if !is_git_dir env full then
      (.error (.fileNotFoundError ("Not a git repository: " ++ repoName)), [])
    else
      let argv := ["git", "-C", full] ++ args
      match env.proc argv with
      | .completed rc out err =>
          let o := strTrim out
          let e := strTrim err
          if rc != 0 && e != "" then (.error (.runtimeError e), [.spawnGit argv 60])
          else (.ok (if o != "" then o else e), [.spawnGit argv 60])
      | .hangs => (.error (.timeoutExpired (timedOutMessage argv 60)), [.spawnGit argv 60])
      | .spawnFailure m => (.error (.fileNotFoundError m), [.spawnGit argv 60])

/-- One row of the inventory listing. -/
structure RepoRecord where
  name : String
  path : String
  currentBranch : Option String
  isClean : Option Bool
deriving DecidableEq

/-- Argv of the branch probe in `get_repos`. -/
def branchArgv (full : String) : List String :=
  ["git", "-C", full, "rev-parse", "--abbrev-ref", "HEAD"]

/-- Argv of the cleanliness probe in `get_repos`. -/
def statusArgv (full : String) : List String :=
  ["git", "-C", full, "status", "--porcelain"]

/-- The probe block of `get_repos`: both subprocess calls sit in one
`try`, so an exception in the branch probe skips the cleanliness probe
and leaves both fields `None`; an exception in the cleanliness probe
keeps whatever the branch probe assigned and leaves `is_clean` `None`.
A nonzero branch exit leaves the branch `None`; a nonzero cleanliness
exit yields `some false`. -/
def probeRepo (env : Env) (full : String) : Option String × Option Bool :=
  match env.proc (branchArgv full) with
  | .completed rc out _ =>
      let cb := if rc == 0 then (if strTrim out == "" then none else some (strTrim out)) else none
      match env.proc (statusArgv full) with
      | .completed rc2 out2 _ => (cb, some (rc2 == 0 && strTrim out2 == ""))
      | _ => (cb, none)
  | _ => (none, none)

/-- Lexicographic comparison of character lists by code point, the
order Python's `sorted` uses on strings. -/
def listLe : List Char → List Char → Bool
  | [], _ => true
  | _ :: _, [] => false
  | x :: xs, y :: ys => if x == y then listLe xs ys else decide (x < y)

/-- Lexicographic order on strings by code point. -/
def strLe (a b : String) : Bool :=
  listLe a.data b.data

/-- Insert a string into a sorted list (helper for `sorted(...)`). -/
def insertSorted (x : String) : List String → List String
  | [] => [x]
  | y :: ys => if strLe x y then x :: y :: ys else y :: insertSorted x ys

/-- Model of `sorted(os.listdir(...))`. -/
def sortNames (l : List String) : List String :=
  l.foldr insertSorted []

/-- Operation `get_repos` from `script.py`: sort the root's entries, skip names
starting with `.`, skip non-directories and non-repositories, and build
one record per remaining entry from the probe results. -/
def get_repos (env : Env) : List RepoRecord :=
  (sortNames env.listing).filterMap fun name =>
    if strStartsWith name "." then none
    else
      let full := osPathJoin env.root name
      if env.isDir full && is_git_dir env full then
        let p := probeRepo env full
        some ⟨name, full, p.1, p.2⟩
      else none

/-- JSON response bodies the router can produce. -/
inductive RespBody where
  | errBody (msg : String)
  | stubBody (name path : String)
  | outputBody (output : String)
deriving DecidableEq

/-- The `POST /init` route: missing or empty name is rejected up front;
`FileExistsError` maps to 409, `ValueError` to 400, anything else to
500 with `str(e)`. -/
def handle_init (env : Env) (nameOpt : Option String) : Nat × RespBody :=
  match nameOpt with
  | none => (400, .errBody "Missing \x27name\x27")
  | some name =>
    if name == "" then (400, .errBody "Missing \x27name\x27")
    else
      match (init_repo env name).1 with
      | .ok (n, p) => (201, .stubBody n p)
      | .error (.fileExistsError m) => (409, .errBody m)
      | .error (.valueError m) => (400, .errBody m)
      | .error e => (500, .errBody (pyStr e))

/-- The `POST /clone` route: missing or empty url is rejected up front;
`FileExistsError` maps to 409, `ValueError` to 400,
`CalledProcessError` to 400 with stderr, falling back to stdout, then
`str(e)`, the result stripped; anything else to 500 with `str(e)`. -/
def handle_clone (env : Env) (urlOpt : Option String) (nameOpt : Option String) :
    Nat × RespBody :=
  match urlOpt with
  | none => (400, .errBody "Missing \x27url\x27")
  | some url =>
    if url == "" then (400, .errBody "Missing \x27url\x27")
    else
      match (clone_repo env url nameOpt).1 with
      | .ok (n, p) => (201, .stubBody n p)
      | .error (.fileExistsError m) => (409, .errBody m)
      | .error (.valueError m) => (400, .errBody m)
      | .error (.calledProcessError out err s) =>
          (400, .errBody (strTrim (if err != "" then err else if out != "" then out else s)))
      | .error e => (500, .errBody (pyStr e))

/-- The `POST /run` route: a missing or empty repo, or args that are not
a list, are rejected up front; `FileNotFoundError` maps to 404,
`RuntimeError` to 400, anything else to 500 with `str(e)`. -/
def handle_run (env : Env) (repoOpt : Option String) (argsOpt : Option (List String)) :
    Nat × RespBody :=
  match repoOpt, argsOpt with
  | some repo, some args =>
    if repo == "" then (400, .errBody "Missing \x27repo\x27 or \x27args\x27 (list)")
    else
      match (run_git env repo args).1 with
      | .ok out => (200, .outputBody out)
      | .error (.fileNotFoundError m) => (404, .errBody m)
      | .error (.runtimeError m) => (400, .errBody m)
      | .error e => (500, .errBody (pyStr e))
  | _, _ => (400, .errBody "Missing \x27repo\x27 or \x27args\x27 (list)")

/-- The name shape the specification's validation claims quantify over:
containing a separator or starting with a dot. -/
def badName (n : String) : Bool :=
  strContains n '/' || strContains n '\\' || strStartsWith n "."

/-- Whether a trace contains a git subprocess invocation. -/
def hasSpawn (tr : List Effect) : Bool :=
  tr.any fun e => match e with
    | .spawnGit _ _ => true
    | _ => false

/-- A benign concrete environment: empty filesystem, every subprocess
succeeds silently. -/
def envEmpty : Env :=
  { root := "/r", pathExists := fun _ => false, isDir := fun _ => false
  , proc := fun _ => .completed 0 "" "", listing := [] }

/-- Concrete environment whose subprocesses exit nonzero with
diagnostic text on stderr. -/
def envProcFails : Env :=
  { root := "/r", pathExists := fun _ => false, isDir := fun _ => false
  , proc := fun _ => .completed 1 "" "fatal: boom", listing := [] }

/-- Concrete environment whose subprocesses exceed their timeout. -/
def envHangs : Env :=
  { root := "/r", pathExists := fun _ => false, isDir := fun _ => false
  , proc := fun _ => .hangs, listing := [] }

/-- Concrete environment where spawning a subprocess fails. -/
def envSpawnFails : Env :=
  { root := "/r", pathExists := fun _ => false, isDir := fun _ => false
  , proc := fun _ => .spawnFailure "No such file or directory: git", listing := [] }

/-- Concrete environment where every path exists and is a directory and
subprocesses exit nonzero with stderr text. -/
def envRepoProcFails : Env :=
  { root := "/r", pathExists := fun _ => true, isDir := fun _ => true
  , proc := fun _ => .completed 1 "" "boom", listing := [] }

/-- Concrete environment where every path is a repository and
subprocesses succeed with stdout text. -/
def envRepoProcOk : Env :=
  { root := "/r", pathExists := fun _ => true, isDir := fun _ => true
  , proc := fun _ => .completed 0 "hello\n" "", listing := [] }

/-- Concrete environment where only the root path (with its trailing
slash, as produced by joining the empty name) exists. -/
def envRootExists : Env :=
  { root := "/r", pathExists := fun p => p == "/r/", isDir := fun _ => false
  , proc := fun _ => .completed 0 "" "", listing := [] }

/-- Concrete environment with one repository `a` whose cleanliness
probe exits nonzero while its branch probe succeeds. -/
def envStatusFails : Env :=
  { root := "/r", pathExists := fun _ => true, isDir := fun _ => true
  , proc := fun argv =>
      if argv == statusArgv "/r/a" then .completed 1 "" "fatal: bad index"
      else .completed 0 "main\n" ""
  , listing := ["a"] }

/-- Concrete environment for probing `get_repos` degradations: one
repository `a`; the branch probe hangs on `/x1`, the cleanliness probe
hangs on `/x2`, the branch probe exits nonzero on `/x3`, everything
else succeeds. -/
def envProbeMix : Env :=
  { root := "/r", pathExists := fun _ => true, isDir := fun _ => true
  , proc := fun argv =>
      if argv == branchArgv "/x1" then .hangs
      else if argv == statusArgv "/x2" then .hangs
      else if argv == branchArgv "/x3" then .completed 1 "" "err"
      else .completed 0 "main\n" ""
  , listing := ["a"] }

/-- Claim C1: every name containing `/` or `\` or starting with `.` is
rejected with `ValueError` (the ValidationError kind, mapped to HTTP
400) by `init_repo`, and by `clone_repo` whether the name is supplied
or derived from the URL, before any git subprocess is invoked and
before the target path is checked or created: `init_repo` performs no
effect at all, `clone_repo` only the idempotent root ensure. -/
theorem init_clone_reject_bad_names (env : Env) (name url : String)
    (hbad : badName name = true) :
    init_repo env name = (.error (.valueError "Invalid repo name"), []) ∧
    (url ≠ "" →
      clone_repo env url (some name) =
        (.error (.valueError "Invalid repo name"), [.ensureRoot])) ∧
    (url ≠ "" → badName (derive_name url) = true →
      clone_repo env url none =
        (.error (.valueError "Invalid repo name"), [.ensureRoot])) ∧
    handle_init env (some name) = (400, .errBody "Invalid repo name") ∧
    (url ≠ "" → handle_clone env (some url) (some name) = (400, .errBody "Invalid repo name")) := by
  have hne : (name == "") = false := by
    cases hn : name == "" with
    | true =>
        have h0 := eq_of_beq hn
        subst h0
        exact absurd hbad (by decide)
    | false => rfl
  simp only [badName, Bool.or_eq_true] at hbad
  refine ⟨?_, fun hu => ?_, fun hu hd => ?_, ?_, fun hu => ?_⟩
  · rcases hbad with (h | h) | h <;> simp [init_repo, h, hne]
  · rcases hbad with (h | h) | h <;> simp [clone_repo, h, hu]
  · simp only [badName, Bool.or_eq_true] at hd
    rcases hd with (h | h) | h <;> simp [clone_repo, h, hu]
  · rcases hbad with (h | h) | h <;> simp [handle_init, init_repo, h, hne]
  · rcases hbad with (h | h) | h <;> simp [handle_clone, clone_repo, h, hu]

theorem init_clone_reject_bad_names_witness :
    badName "a/b" = true ∧ badName (derive_name "http://h/.hidden") = true ∧
    handle_init envEmpty (some "a/b") = (400, .errBody "Invalid repo name") ∧
    clone_repo envEmpty "http://h/.hidden" none =
      (.error (.valueError "Invalid repo name"), [.ensureRoot]) := by
  refine ⟨by decide, by decide, ?_, ?_⟩
  · exact (init_clone_reject_bad_names envEmpty "a/b" "http://h/.hidden" (by decide)).2.2.2.1
  · exact (init_clone_reject_bad_names envEmpty "a/b" "http://h/.hidden"
      (by decide)).2.2.1 (by decide) (by decide)

/-- Claim C2 counterexample: for the valid, non-existing name `demo`,
a nonzero `git init` exit is routed through the generic handler to
HTTP 500 — not to 400 as the claim states — with `str(e)` rather than
the process's diagnostic output (`fatal: boom` is nowhere in the
body). -/
theorem init_failure_maps_to_500_counterexample :
    (handle_init envProcFails (some "demo")).1 = 500 ∧
    (handle_init envProcFails (some "demo")).1 ≠ 400 ∧
    (handle_init envProcFails (some "demo")).2 =
      .errBody (cpeMessage ["git", "init", "/r/demo"] 1) := by
  refine ⟨?_, by decide, ?_⟩ <;> rfl

/-- Claim C2 amended: for a valid, non-existing name, a nonzero exit or
a timeout of the `git init` subprocess raises `CalledProcessError`
resp. `TimeoutExpired`, which the `/init` route's generic handler maps
to HTTP 500 with the exception's string message — not to 400 and not
with the process's diagnostic output. -/
theorem init_subprocess_failure_maps_to_500 (env env2 : Env) (name : String)
    (rc : Int) (out err : String)
    (hbad : badName name = false) (hne : name ≠ "")
    (hex : env.pathExists (osPathJoin env.root name) = false)
    (hproc : env.proc ["git", "init", osPathJoin env.root name] = .completed rc out err)
    (hrc : rc ≠ 0)
    (hex2 : env2.pathExists (osPathJoin env2.root name) = false)
    (hproc2 : env2.proc ["git", "init", osPathJoin env2.root name] = .hangs) :
    handle_init env (some name) =
      (500, .errBody (cpeMessage ["git", "init", osPathJoin env.root name] rc)) ∧
    handle_init env2 (some name) =
      (500, .errBody (timedOutMessage ["git", "init", osPathJoin env2.root name] 10)) := by
  simp only [badName, Bool.or_eq_false_iff] at hbad
  obtain ⟨⟨h1, h2⟩, h3⟩ := hbad
  constructor
  · simp [handle_init, init_repo, hne, h1, h2, h3, hex, hproc, hrc, pyStr]
  · simp [handle_init, init_repo, hne, h1, h2, h3, hex2, hproc2, pyStr]

theorem init_subprocess_failure_maps_to_500_witness :
    (handle_init envProcFails (some "demo")).1 = 500 ∧
    (handle_init envHangs (some "demo")).1 = 500 := by
  have h := init_subprocess_failure_maps_to_500 envProcFails envHangs "demo" 1 "" "fatal: boom"
    (by decide) (by decide) (by decide) (by decide) (by decide) (by decide) (by decide)
  exact ⟨by rw [h.1], by rw [h.2]⟩

/-- Claim C3 counterexample: a clone whose subprocess times out is not
mapped to ExecutionError/HTTP 400 — the `/clone` route catches only
`CalledProcessError`, so `TimeoutExpired` falls to the generic handler
and HTTP 500; likewise a spawn failure yields 500. -/
theorem clone_failure_maps_counterexample :
    (handle_clone envHangs (some "http://h/x.git") (some "demo")).1 = 500 ∧
    (handle_clone envHangs (some "http://h/x.git") (some "demo")).1 ≠ 400 ∧
    (handle_clone envSpawnFails (some "http://h/x.git") (some "demo")).1 = 500 := by
  refine ⟨?_, by decide, ?_⟩ <;> rfl

/-- Claim C3 amended: for a valid name and non-existing target path,
only a nonzero exit of the clone subprocess surfaces as HTTP 400 with
the process's standard-error text (falling back to standard-output
text, then the exception's string message, the result stripped); a
timeout or a process-spawn error falls to the generic handler and
HTTP 500. -/
theorem clone_subprocess_failure_routing (env env2 env3 : Env) (url name : String)
    (rc : Int) (out err m3 : String)
    (hurl : url ≠ "")
    (hbad : badName name = false)
    (hex : env.pathExists (osPathJoin env.root name) = false)
    (hproc : env.proc ["git", "clone", url, osPathJoin env.root name] = .completed rc out err)
    (hrc : rc ≠ 0)
    (hex2 : env2.pathExists (osPathJoin env2.root name) = false)
    (hproc2 : env2.proc ["git", "clone", url, osPathJoin env2.root name] = .hangs)
    (hex3 : env3.pathExists (osPathJoin env3.root name) = false)
    (hproc3 : env3.proc ["git", "clone", url, osPathJoin env3.root name] = .spawnFailure m3) :
    handle_clone env (some url) (some name) =
      (400, .errBody (strTrim (if err != "" then err
        else if out != "" then out
        else cpeMessage ["git", "clone", url, osPathJoin env.root name] rc))) ∧
    handle_clone env2 (some url) (some name) =
      (500, .errBody (timedOutMessage ["git", "clone", url, osPathJoin env2.root name] 300)) ∧
    handle_clone env3 (some url) (some name) = (500, .errBody m3) := by
  simp only [badName, Bool.or_eq_false_iff] at hbad
  obtain ⟨⟨h1, h2⟩, h3⟩ := hbad
  refine ⟨?_, ?_, ?_⟩
  · simp [handle_clone, clone_repo, hurl, h1, h2, h3, hex, hproc, hrc]
  · simp [handle_clone, clone_repo, hurl, h1, h2, h3, hex2, hproc2, pyStr]
  · simp [handle_clone, clone_repo, hurl, h1, h2, h3, hex3, hproc3, pyStr]

theorem clone_subprocess_failure_routing_witness :
    (handle_clone envProcFails (some "http://h/x.git") (some "demo")).1 = 400 ∧
    (handle_clone envHangs (some "http://h/x.git") (some "demo")).1 = 500 ∧
    (handle_clone envSpawnFails (some "http://h/x.git") (some "demo")).1 = 500 := by
  have h := clone_subprocess_failure_routing envProcFails envHangs envSpawnFails
    "http://h/x.git" "demo" 1 "" "fatal: boom" "No such file or directory: git"
    (by decide) (by decide) (by decide) (by decide) (by decide) (by decide) (by decide)
    (by decide) (by decide)
  exact ⟨by rw [h.1], by rw [h.2.1], by rw [h.2.2]⟩

/-- Claim C4 counterexample: `run` against the non-repository name
`missing` with an *empty* args list does not yield NotFound/404 — the
empty-args short-circuit fires before the repository check, returning
HTTP 200 with an empty output. -/
theorem run_notfound_counterexample :
    handle_run envEmpty (some "missing") (some []) = (200, .outputBody "") ∧
    (handle_run envEmpty (some "missing") (some [])).1 ≠ 404 := by
  exact ⟨rfl, by decide⟩

/-- Claim C4 amended: for every *non-empty* args list, `run` against a
name whose path has no `.git` directory fails with
`FileNotFoundError "Not a git repository: <name>"`, mapped to HTTP 404
with that message, and no subprocess is invoked; with an empty args
list the repository check is skipped and the call returns the empty
output with HTTP 200. -/
theorem run_notfound_nonempty_args (env : Env) (repo : String) (args : List String)
    (hargs : args ≠ [])
    (hgit : is_git_dir env (osPathJoin env.root repo) = false)
    (hrepo : repo ≠ "") :
    run_git env repo args =
      (.error (.fileNotFoundError ("Not a git repository: " ++ repo)), []) ∧
    handle_run env (some repo) (some args) =
      (404, .errBody ("Not a git repository: " ++ repo)) ∧
    run_git env repo [] = (.ok "", []) := by
  refine ⟨?_, ?_, rfl⟩
  · simp [run_git, hargs, hgit]
  · simp [handle_run, run_git, hargs, hgit, hrepo]

theorem run_notfound_nonempty_args_witness :
    handle_run envEmpty (some "missing") (some ["status"]) =
      (404, .errBody "Not a git repository: missing") := by
  exact (run_notfound_nonempty_args envEmpty "missing" ["status"]
    (by decide) (by decide) (by decide)).2.1

/-- Claim C5: for every repo value — even one naming no repository —
`run_git` with an empty args sequence returns the empty output at once
with an empty effect trace, so no subprocess is invoked; through the
router (which first requires a non-empty repo field) this is HTTP 200
with `{output: ""}`. -/
theorem run_empty_args_short_circuit (env : Env) (repo : String) :
    run_git env repo [] = (.ok "", []) ∧
    (repo ≠ "" → handle_run env (some repo) (some []) = (200, .outputBody "")) := by
  refine ⟨rfl, fun hrepo => ?_⟩
  simp [handle_run, run_git, hrepo]

theorem run_empty_args_short_circuit_witness :
    run_git envEmpty "missing" [] = (.ok "", []) ∧
    handle_run envEmpty "missing" (some []) = (200, .outputBody "") := by
  exact ⟨(run_empty_args_short_circuit envEmpty "missing").1,
    (run_empty_args_short_circuit envEmpty "missing").2 (by decide)⟩

/-- Claim C6: on an existing git repository with non-empty args, when
the subprocess exits: a nonzero exit with non-empty trimmed stderr
fails with `RuntimeError` carrying that stderr text (HTTP 400); every
other exit succeeds with the trimmed stdout, or the trimmed stderr
when stdout is empty. -/
theorem run_success_policy (env : Env) (repo : String) (args : List String)
    (rc : Int) (out err : String)
    (hargs : args ≠ [])
    (hgit : is_git_dir env (osPathJoin env.root repo) = true)
    (hproc : env.proc (["git", "-C", osPathJoin env.root repo] ++ args) =
      .completed rc out err) :
    (rc ≠ 0 → strTrim err ≠ "" →
      (run_git env repo args).1 = .error (.runtimeError (strTrim err)) ∧
      (repo ≠ "" → handle_run env (some repo) (some args) =
        (400, .errBody (strTrim err)))) ∧
    (rc = 0 ∨ strTrim err = "" →
      (run_git env repo args).1 =
        .ok (if strTrim out != "" then strTrim out else strTrim err)) := by
  simp only [List.cons_append, List.nil_append] at hproc
  constructor
  · intro hrc herr
    constructor
    · simp [run_git, hargs, hgit, hproc, hrc, herr]
    · intro hrepo
      simp [handle_run, run_git, hargs, hgit, hproc, hrc, herr, hrepo]
  · intro h
    rcases h with h | h
    · simp [run_git, hargs, hgit, hproc, h]
    · simp [run_git, hargs, hgit, hproc, h]

theorem run_success_policy_witness :
    (run_git envRepoProcFails "demo" ["status"]).1 = .error (.runtimeError "boom") ∧
    handle_run envRepoProcFails (some "demo") (some ["status"]) = (400, .errBody "boom") ∧
    (run_git envRepoProcOk "demo" ["status"]).1 = .ok "hello" := by
  have hf := run_success_policy envRepoProcFails "demo" ["status"] 1 "" "boom"
    (by decide) (by decide) (by decide)
  have ho := run_success_policy envRepoProcOk "demo" ["status"] 0 "hello\n" ""
    (by decide) (by decide) (by decide)
  refine ⟨(hf.1 (by decide) (by decide)).1, (hf.1 (by decide) (by decide)).2 (by decide), ?_⟩
  have h2 := ho.2 (Or.inl rfl)
  rw [h2]
  rfl

/-- The `or "repo"` fallback never produces an empty string. -/
theorem str_or_repo_ne (s : String) : (if s == "" then "repo" else s) ≠ "" := by
  by_cases h : s = ""
  · subst h; decide
  · simp [h]

/-- Claim C7 counterexample: clone does not validate the name by the
same rule as init — an empty supplied name passes clone's validation
(no emptiness check), is joined to the root path with a trailing
slash, and since that path exists the request fails with
`FileExistsError`/HTTP 409, while init rejects the empty name with
`ValueError`. -/
theorem clone_empty_name_counterexample :
    (clone_repo envRootExists "http://h/x.git" (some "")).1 =
      .error (.fileExistsError "A directory named \"\" already exists") ∧
    handle_clone envRootExists (some "http://h/x.git") (some "") =
      (409, .errBody "A directory named \"\" already exists") ∧
    (init_repo envRootExists "").1 = .error (.valueError "Invalid repo name") := by
  exact ⟨rfl, rfl, rfl⟩

/-- Claim C7 amended: clone validates a supplied or derived name by the
same separator/dot rule as init but omits init's emptiness check; a
derived name is never empty (the `repo` fallback), while an empty
supplied name passes validation and — the root existing — fails with
Conflict, not ValidationError. -/
theorem clone_validation_vs_init (env : Env) (url name : String)
    (hurl : url ≠ "")
    (hbad : badName name = true) :
    (clone_repo env url (some name)).1 = .error (.valueError "Invalid repo name") ∧
    (init_repo env name).1 = .error (.valueError "Invalid repo name") ∧
    derive_name url ≠ "" ∧
    (env.pathExists (osPathJoin env.root "") = true →
      (clone_repo env url (some "")).1 =
        .error (.fileExistsError "A directory named \"\" already exists")) := by
  have hne : (name == "") = false := by
    cases hn : name == "" with
    | true =>
        have h0 := eq_of_beq hn
        subst h0
        exact absurd hbad (by decide)
    | false => rfl
  simp only [badName, Bool.or_eq_true] at hbad
  refine ⟨?_, ?_, ?_, fun hex => ?_⟩
  · rcases hbad with (h | h) | h <;> simp [clone_repo, h, hurl]
  · rcases hbad with (h | h) | h <;> simp [init_repo, h, hne]
  · simp only [derive_name]
    exact str_or_repo_ne _
  · simp [clone_repo, hurl, strContains, strStartsWith, hex]

theorem clone_validation_vs_init_witness :
    (clone_repo envRootExists "http://h/x.git" (some "a/b")).1 =
      .error (.valueError "Invalid repo name") ∧
    derive_name "http://h/x.git" ≠ "" ∧
    (clone_repo envRootExists "http://h/x.git" (some "")).1 =
      .error (.fileExistsError "A directory named \"\" already exists") := by
  have h := clone_validation_vs_init envRootExists "http://h/x.git" "a/b"
    (by decide) (by decide)
  exact ⟨h.1, h.2.2.1, h.2.2.2 (by decide)⟩

/-- Claim C8: a valid name whose target path already exists makes
`init_repo` fail with `FileExistsError` (Conflict, HTTP 409), never an
execution error: the effect trace is exactly the root ensure followed
by the existence check, so no git subprocess is ever spawned. -/
theorem init_conflict_on_existing (env : Env) (name : String)
    (hbad : badName name = false) (hne : name ≠ "")
    (hex : env.pathExists (osPathJoin env.root name) = true) :
    init_repo env name =
      (.error (.fileExistsError ("A directory named \"" ++ name ++ "\" already exists")),
       [.ensureRoot, .existsCheck (osPathJoin env.root name)]) ∧
    hasSpawn (init_repo env name).2 = false ∧
    handle_init env (some name) =
      (409, .errBody ("A directory named \"" ++ name ++ "\" already exists")) := by
  simp only [badName, Bool.or_eq_false_iff] at hbad
  obtain ⟨⟨h1, h2⟩, h3⟩ := hbad
  refine ⟨?_, ?_, ?_⟩
  · simp [init_repo, hne, h1, h2, h3, hex]
  · simp [init_repo, hne, h1, h2, h3, hex, hasSpawn]
  · simp [handle_init, init_repo, hne, h1, h2, h3, hex]

theorem init_conflict_on_existing_witness :
    handle_init envRepoProcFails (some "demo") =
      (409, .errBody "A directory named \"demo\" already exists") := by
  exact (init_conflict_on_existing envRepoProcFails "demo"
    (by decide) (by decide) (by decide)).2.2

/-- Membership in `insertSorted` is membership in the tail or equality
with the inserted element. -/
theorem mem_insertSorted (x y : String) (l : List String) :
    y ∈ insertSorted x l ↔ y = x ∨ y ∈ l := by
  induction l with
  | nil => simp [insertSorted]
  | cons z zs ih =>
      by_cases h : strLe x z = true
      · simp [insertSorted, h]
      · simp [insertSorted, h, ih]
        tauto

/-- Sorting preserves membership. -/
theorem mem_sortNames (y : String) (l : List String) :
    y ∈ sortNames l ↔ y ∈ l := by
  induction l with
  | nil => simp [sortNames]
  | cons z zs ih =>
      simp only [sortNames, List.foldr] at ih ⊢
      rw [mem_insertSorted]
      simp [ih]

/-- Claim C9 counterexample: a repository whose cleanliness probe exits
nonzero does NOT get `isClean = null` — the listing records
`isClean = false` (and keeps the branch the successful branch probe
returned); only a raised exception leaves fields unset. -/
theorem listing_status_nonzero_counterexample :
    get_repos envStatusFails = [⟨"a", "/r/a", some "main", some false⟩] ∧
    (some false : Option Bool) ≠ none := by
  exact ⟨rfl, by decide⟩

/-- Claim C9 amended: every eligible repository always contributes a
record built from its probe results — no probe outcome removes it or
aborts the scan — and a probe failure that raises (timeout or spawn
error) degrades exactly the not-yet-assigned fields to `none`: a
raising branch probe leaves both fields `none`, a raising cleanliness
probe leaves `isClean` `none`, a nonzero branch-probe exit leaves
`currentBranch` `none`. (A nonzero cleanliness-probe exit, however,
yields `isClean = some false`, per the counterexample.) -/
theorem listing_degrades_not_aborts (env : Env) (name : String)
    (hmem : name ∈ env.listing)
    (hdot : strStartsWith name "." = false)
    (hdir : env.isDir (osPathJoin env.root name) = true)
    (hgit : is_git_dir env (osPathJoin env.root name) = true) :
    RepoRecord.mk name (osPathJoin env.root name)
        (probeRepo env (osPathJoin env.root name)).1
        (probeRepo env (osPathJoin env.root name)).2 ∈ get_repos env ∧
    (∀ full, (∀ rc out err, env.proc (branchArgv full) ≠ .completed rc out err) →
        probeRepo env full = (none, none)) ∧
    (∀ full rc out err, env.proc (branchArgv full) = .completed rc out err →
        (∀ rc2 out2 err2, env.proc (statusArgv full) ≠ .completed rc2 out2 err2) →
        (probeRepo env full).2 = none) ∧
    (∀ full rc out err, env.proc (branchArgv full) = .completed rc out err → rc ≠ 0 →
        (probeRepo env full).1 = none) := by
  refine ⟨?_, ?_, ?_, ?_⟩
  · apply List.mem_filterMap.2
    refine ⟨name, (mem_sortNames name env.listing).2 hmem, ?_⟩
    simp [hdot, hdir, hgit]
  · intro full h
    cases hb : env.proc (branchArgv full) with
    | completed rc out err => exact absurd hb (h rc out err)
    | hangs => simp [probeRepo, hb]
    | spawnFailure m => simp [probeRepo, hb]
  · intro full rc out err hb h
    cases hs : env.proc (statusArgv full) with
    | completed rc2 out2 err2 => exact absurd hs (h rc2 out2 err2)
    | hangs => simp [probeRepo, hb, hs]
    | spawnFailure m => simp [probeRepo, hb, hs]
  · intro full rc out err hb hrc
    cases hs : env.proc (statusArgv full) with
    | completed rc2 out2 err2 => simp [probeRepo, hb, hs, hrc]
    | hangs => simp [probeRepo, hb, hs, hrc]
    | spawnFailure m => simp [probeRepo, hb, hs, hrc]

theorem listing_degrades_not_aborts_witness :
    (⟨"a", "/r/a", some "main", some false⟩ : RepoRecord) ∈ get_repos envProbeMix ∧
    probeRepo envProbeMix "/x1" = (none, none) ∧
    (probeRepo envProbeMix "/x2").2 = none ∧
    (probeRepo envProbeMix "/x3").1 = none := by
  have h := listing_degrades_not_aborts envProbeMix "a"
    (by decide) (by decide) (by decide) (by decide)
  refine ⟨h.1, ?_, ?_, ?_⟩
  · exact h.2.1 "/x1" (fun _ _ _ hc => ProcOutcome.noConfusion hc)
  · exact h.2.2.1 "/x2" 0 "main\n" "" rfl (fun _ _ _ hc => ProcOutcome.noConfusion hc)
  · exact h.2.2.2 "/x3" 1 "" "err" rfl (by decide)

/-- Claim C10: `run_git` applies no name validation whatsoever — it can
never fail with `ValueError` for any repo string — and joins the repo
string directly under the root, so the git subprocess, when invoked,
runs with `-C <root>/<repo>` verbatim; in particular `../somedir`
yields the path `<root>/../somedir`, which resolves outside the
root. -/
theorem run_no_name_validation (env : Env) (repo : String) (args : List String) :
    (∀ m, (run_git env repo args).1 ≠ .error (.valueError m)) ∧
    (args ≠ [] → is_git_dir env (osPathJoin env.root repo) = true →
      (run_git env repo args).2 =
        [.spawnGit (["git", "-C", osPathJoin env.root repo] ++ args) 60]) ∧
    (env.root ≠ "" → strEndsWith env.root "/" = false →
      osPathJoin env.root "../somedir" = env.root ++ "/" ++ "../somedir") := by
  refine ⟨fun m => ?_, fun ha hg => ?_, fun h1 h2 => ?_⟩
  · by_cases ha : args = []
    · simp [run_git, ha]
    · by_cases hg : is_git_dir env (osPathJoin env.root repo) = true
      · cases hp : env.proc (["git", "-C", osPathJoin env.root repo] ++ args) with
        | completed rc out err =>
            simp only [List.cons_append, List.nil_append] at hp
            simp [run_git, ha, hg, hp]
            split <;> simp
        | hangs =>
            simp only [List.cons_append, List.nil_append] at hp
            simp [run_git, ha, hg, hp]
        | spawnFailure m2 =>
            simp only [List.cons_append, List.nil_append] at hp
            simp [run_git, ha, hg, hp]
      · rw [Bool.not_eq_true] at hg
        simp [run_git, ha, hg]
  · cases hp : env.proc (["git", "-C", osPathJoin env.root repo] ++ args) with
    | completed rc out err =>
        simp only [List.cons_append, List.nil_append] at hp
        simp [run_git, ha, hg, hp]
        split <;> rfl
    | hangs =>
        simp only [List.cons_append, List.nil_append] at hp
        simp [run_git, ha, hg, hp]
    | spawnFailure m2 =>
        simp only [List.cons_append, List.nil_append] at hp
        simp [run_git, ha, hg, hp]
  · have hs : strStartsWith "../somedir" "/" = false := by decide
    simp [osPathJoin, hs, h1, h2]

theorem run_no_name_validation_witness :
    (run_git envRepoProcOk "../somedir" ["status"]).1 ≠
      .error (.valueError "Invalid repo name") ∧
    (run_git envRepoProcOk "../somedir" ["status"]).2 =
      [.spawnGit ["git", "-C", "/r/../somedir", "status"] 60] ∧
    osPathJoin "/r" "../somedir" = "/r" ++ "/" ++ "../somedir" := by
  have h := run_no_name_validation envRepoProcOk "../somedir" ["status"]
  refine ⟨h.1 "Invalid repo name", ?_, ?_⟩
  · have h2 := h.2.1 (by decide) (by decide)
    rw [h2]
    decide
  · exact h.2.2 (by decide) (by decide)
